import Mathlib

/-
  Verification development for the products/reviews CRUD API
  (Go, repository ReynerioSamos/reviews).

  Shallow embedding of:
  - the pagination/filter engine (internal/data: Filters, Metadata,
    ValidateFilters, sortColumn, sortDirection, limit, offset,
    calculateMetaData),
  - the review/product repositories (internal/data/reviews.go,
    internal/data/products.go) over an explicit relational state,
  - the review validators and the create-review handler
    (cmd/api/reviews.go).

  Modelling conventions:
  - Go `int`/`int64`/`int8` are modelled as `Int` (no claim exercises
    overflow); derived SQL NUMERIC values as `Option ℚ` (NULL = none).
  - Go runtime panics (integer division by zero, the sortColumn panic)
    are modelled as `none` of an `Option` result.
  - Each SQL statement that the repository issues is translated to a
    pure state transformer on `DB`.  The review mutations are single
    statements built from data-modifying CTEs (`WITH ins AS (INSERT ...)
    , upd AS (UPDATE product SET avg_rating = (SELECT ROUND(AVG(..)..)
    FROM review ..) ..) SELECT ..`).  PostgreSQL executes all
    sub-statements of one statement against the same snapshot: a
    sub-statement never sees rows inserted/updated/deleted by a sibling
    CTE of the same statement (effects are only visible through
    RETURNING).  The embedding therefore computes the AVG subqueries
    over the pre-statement `reviews` table.  (The repository's own
    earlier revision of Delete carried `AND r.rid != $1` in the AVG
    subquery, which is exactly the correction this snapshot rule
    forces; the current revision dropped it.)
-/

namespace ReviewsApi

/- String literals used by the Go source, bound to names once. -/

def dashChar : Char := '-'

def emptyStr : String := ""

def descStr : String := "DESC"

def ascStr : String := "ASC"

def ridCol : String := "rid"

def ratingCol : String := "rating"

def helpfulCountCol : String := "helpful_count"

def createdAtCol : String := "created_at"

def pidCol : String := "pid"

def pnameCol : String := "pname"

def pageKey : String := "page"

def pageSizeKey : String := "page_size"

def sortFieldKey : String := "sort"

def msgGtZero : String := "must be greater than zero"

def msgPageMax : String := "must be a maximum of 500"

def msgPageSizeMax : String := "must be a maximum of 100"

def msgSortOneOfPre : String := "must be one of: "

def commaSpace : String := ", "

def prodIdKey : String := "Prod_ID:"

def ratingKey : String := "Rating:"

def msgMustBeValid : String := "must be valid"

def msgRatingRange : String := "must be between 1 and 5"

def msgMustBeProvided : String := "must be provided"

def msgRatingProvided : String := "must be prodivded"

def msgDanglingRef : String := "referenced prodcut does not exist"

def msgInvalidIncrement : String := "invalid increment value: must be 1 pr -1"

def msgInvalidReviewIdPre : String := "invalid review ID: "

def msgFkViolation : String := "insert on review violates foreign key fk_product"

/-- Modelled from the spec: the `internal/validator` package is not part of
the provided sources (only its callers are).  The spec describes it as a
generic field-check accumulator: a structured list of (field, message)
pairs collected into a single report, so that all violations of one
validation pass are reported together. -/
structure Validator where
  errors : List (String × String)
deriving DecidableEq

/-- Modelled from the spec: a fresh accumulator with no errors
(`validator.New`). -/
def Validator.new : Validator := ⟨[]⟩

/-- Modelled from the spec: record a field-level violation
(`Validator.AddError`). -/
def Validator.AddError (v : Validator) (key msg : String) : Validator :=
  ⟨v.errors ++ [(key, msg)]⟩

/-- Modelled from the spec: check a condition, recording the violation when
it fails (`Validator.Check`).  Checking never short-circuits: the
accumulator is threaded through every check. -/
def Validator.Check (v : Validator) (ok : Prop) [Decidable ok] (key msg : String) : Validator :=
  if ok then v else v.AddError key msg

/-- Modelled from the spec: `Validator.IsEmpty` — no violations recorded. -/
def Validator.IsEmpty (v : Validator) : Bool := v.errors.isEmpty

/-- Modelled from the spec: `validator.PermittedValue` — membership of a
value in an allow-list. -/
def PermittedValue (value : String) (permittedValues : List String) : Bool :=
  decide (value ∈ permittedValues)

/- Pagination/filter engine (internal/data, filters section of the source). -/

def MaxPageSize : Int := 100

def MaxPageNumber : Int := 500

def DefaultPageSize : Int := 20

def DefaultPage : Int := 1

/-- The per-request filter value object (Go struct `Filters`). -/
structure Filters where
  Page : Int
  PageSize : Int
  Sort' : String
  SortSafeList : List String
deriving DecidableEq

/-- Pagination metadata (Go struct `Metadata`); Go zero values are 0/false. -/
structure Metadata where
  CurrentPage : Int
  PageSize : Int
  FirstPage : Int
  LastPage : Int
  TotalRecords : Int
  HasNextPage : Bool
  HasPrevPage : Bool
  NextPage : Int
  PrevPage : Int
deriving DecidableEq

/-- The Go zero value `Metadata{}` returned for an empty result set. -/
def emptyMetadata : Metadata := ⟨0, 0, 0, 0, 0, false, false, 0, 0⟩

/-- Go `strings.HasPrefix(s, "-")`. -/
def hasLeadingDash (s : String) : Bool :=
  match s.data with
  | [] => false
  | c :: _ => c = dashChar

/-- Go `strings.TrimPrefix(s, "-")`. -/
def trimLeadingDash (s : String) : String :=
  if hasLeadingDash s then String.mk (s.data.drop 1) else s

/-- The dynamic part of the sort validation message:
`fmt.Sprintf("must be one of: %s", strings.Join(f.SortSafeList, ", "))`. -/
def sortOneOfMsg (safeList : List String) : String :=
  msgSortOneOfPre ++ String.intercalate commaSpace safeList

/-- The function `ValidateFilters` from the source: bounds checks on page and page size,
and — only when the sort key is nonempty — an allow-list check on the sort
key stripped of its descending marker. -/
def ValidateFilters (v : Validator) (f : Filters) : Validator :=
  let v1 := v.Check (0 < f.Page) pageKey msgGtZero
  let v2 := v1.Check (f.Page ≤ MaxPageNumber) pageKey msgPageMax
  let v3 := v2.Check (0 < f.PageSize) pageSizeKey msgGtZero
  let v4 := v3.Check (f.PageSize ≤ MaxPageSize) pageSizeKey msgPageSizeMax
  if f.Sort' ≠ emptyStr then
    v4.Check (PermittedValue (trimLeadingDash f.Sort') f.SortSafeList = true)
      sortFieldKey (sortOneOfMsg f.SortSafeList)
  else v4

/-- The function `Filters.sortColumn` from the source: if the raw sort key is a member of
the safe list, return it stripped of the descending marker; otherwise fall
back to the first safe-list entry; with an empty safe list the Go code
panics ("unsafe sort parameter"), modelled as `none`. -/
def Filters.sortColumn (f : Filters) : Option String :=
  let sortField := trimLeadingDash f.Sort'
  if f.Sort' ∈ f.SortSafeList then some sortField
  else
    match f.SortSafeList with
    | c :: _ => some c
    | [] => none

/-- The function `Filters.sortDirection` from the source: DESC on a leading hyphen,
ASC otherwise. -/
def Filters.sortDirection (f : Filters) : String :=
  if hasLeadingDash f.Sort' then descStr else ascStr

/-- The function `Filters.limit` from the source. -/
def Filters.limit (f : Filters) : Int := f.PageSize

/-- The function `Filters.offset` from the source. -/
def Filters.offset (f : Filters) : Int := (f.Page - 1) * f.PageSize

/-- Go integer division: truncation toward zero; division by zero is a
runtime panic, modelled as `none`. -/
def goDiv (a b : Int) : Option Int :=
  if b = 0 then none else some (Int.tdiv a b)

/-- The function `calculateMetaData` from the source.  The division
`(totalRecords + pageSize - 1) / pageSize` is guarded only by the
`totalRecords == 0` early return. -/
def calculateMetaData (totalRecords currentPage pageSize : Int) : Option Metadata :=
  if totalRecords = 0 then some emptyMetadata
  else
    match goDiv (totalRecords + pageSize - 1) pageSize with
    | none => none
    | some lastPage =>
      let hasNext := decide (currentPage < lastPage)
      let hasPrev := decide (1 < currentPage)
      some { CurrentPage := currentPage
             PageSize := pageSize
             FirstPage := 1
             LastPage := lastPage
             TotalRecords := totalRecords
             HasNextPage := hasNext
             HasPrevPage := hasPrev
             NextPage := if hasNext then currentPage + 1 else 0
             PrevPage := if hasPrev then currentPage - 1 else 0 }

/- Relational state: the two tables of the migrations. -/

/-- A row of the `product` table (migration 000001). -/
structure ProductRow where
  pid : Int
  created_at : Int
  pname : String
  product_category : String
  image_URL : String
  avg_rating : Option ℚ
deriving DecidableEq

/-- A row of the `review` table (migration 000003). -/
structure ReviewRow where
  rid : Int
  prod_id : Int
  created_at : Int
  rating : Int
  helpful_count : Int
deriving DecidableEq

/-- The relational store: both tables, the `rid` bigserial counter, and the
clock used for `NOW()` defaults. -/
structure DB where
  products : List ProductRow
  reviews : List ReviewRow
  nextRid : Int
  now : Int
deriving DecidableEq

/-- SQL `ROUND(x::numeric, 2)`: round to 2 fractional digits.  PostgreSQL
rounds halves away from zero; every value rounded here is a mean of ratings
in [1,5], hence nonnegative, where this agrees with rounding half up. -/
def round2 (q : ℚ) : ℚ := ((⌊q * 100 + 1 / 2⌋ : ℤ) : ℚ) / 100

/-- SQL `SELECT ROUND(AVG(rating)::numeric, 2) FROM review r WHERE
r.prod_id = pid` evaluated over a given state of the `review` table.
`AVG` over zero rows is NULL (`none`). -/
def avgRatingRound2 (rows : List ReviewRow) (pid : Int) : Option ℚ :=
  let sel := rows.filter fun r => r.prod_id == pid
  if sel.isEmpty then none
  else some (round2 ((sel.map fun r => (r.rating : ℚ)).sum / (sel.length : ℚ)))

/-- The Go API entity `Review` (internal/data/reviews.go). -/
structure Review where
  RID : Int
  Prod_ID : Int
  Rating : Int
  Helpful_Count : Int
  CreatedAt : Int
  ProductName : String
deriving DecidableEq

/-- The Go API entity `Product` (internal/data/products.go). -/
structure Product where
  PID : Int
  Pname : String
  Product_Category : String
  Image_URL : String
  Avg_Rating : Option ℚ
  CreatedAt : Int
deriving DecidableEq

/-- Error taxonomy of the data layer: `ErrRecordNotFound`, a failed
validation report, a plain `fmt.Errorf` input error, and engine-level
storage errors. -/
inductive ModelErr where
  | recordNotFound
  | validationFailed (errors : List (String × String))
  | invalidInput (msg : String)
  | storageError (msg : String)
deriving DecidableEq

/-- Result of a repository call (Go's `(T, error)`), with a decidable
equality so concrete runs can be checked by `decide`. -/
inductive Res (α : Type) where
  | ok (val : α)
  | err (e : ModelErr)
deriving DecidableEq

def minRating : Int := 1

def maxRating : Int := 5

/-- The function `ValidateReview` from the source: positivity and range checks on the
incoming review, then the referential-existence check
`SELECT EXISTS(SELECT 1 FROM product WHERE pid = $1)`. -/
def ValidateReview (v : Validator) (review : Review) (db : DB) : Validator :=
  let v1 := v.Check (0 < review.Prod_ID) prodIdKey msgMustBeValid
  let v2 := v1.Check (minRating ≤ review.Rating ∧ review.Rating ≤ maxRating)
    ratingKey msgRatingRange
  let v3 := v2.Check (review.Prod_ID ≠ 0) prodIdKey msgMustBeProvided
  let v4 := v3.Check (review.Rating ≠ 0) ratingKey msgRatingProvided
  let prodExists := db.products.any fun p => p.pid == review.Prod_ID
  if prodExists then v4 else v4.AddError prodIdKey msgDanglingRef

/-- The function `ReviewModel.Insert`: one transaction around one statement whose CTEs
insert the review row and set the product's `avg_rating` from the AVG
subquery.  All sub-statements read `review` at the statement snapshot, so
the AVG is taken over the reviews present BEFORE the insert.  A missing
product is a foreign-key failure: error, no mutation. -/
def ReviewModel.Insert (db : DB) (review : Review) : Res Review × DB :=
  if db.products.any (fun p => p.pid == review.Prod_ID) then
    let newRow : ReviewRow :=
      { rid := db.nextRid
        prod_id := review.Prod_ID
        created_at := db.now
        rating := review.Rating
        helpful_count := 0 }
    let snapshotAvg := avgRatingRound2 db.reviews review.Prod_ID
    let pname :=
      ((db.products.find? fun p => p.pid == review.Prod_ID).map fun p => p.pname).getD emptyStr
    (.ok { review with
           RID := newRow.rid
           CreatedAt := newRow.created_at
           Helpful_Count := 0
           ProductName := pname },
     { db with
       reviews := db.reviews ++ [newRow]
       products := db.products.map fun p =>
         if p.pid == review.Prod_ID then { p with avg_rating := snapshotAvg } else p
       nextRid := db.nextRid + 1 })
  else (.err (.storageError msgFkViolation), db)

/-- The function `ReviewModel.Get`: id < 1 is `ErrRecordNotFound`; otherwise the joined
row, or `ErrRecordNotFound` when the query returns no row. -/
def ReviewModel.Get (db : DB) (id : Int) : Res Review :=
  if id < 1 then .err .recordNotFound
  else
    match db.reviews.find? (fun r => r.rid == id) with
    | none => .err .recordNotFound
    | some r =>
      match db.products.find? (fun p => p.pid == r.prod_id) with
      | none => .err .recordNotFound
      | some p =>
        .ok { RID := r.rid
              Prod_ID := r.prod_id
              Rating := r.rating
              Helpful_Count := r.helpful_count
              CreatedAt := r.created_at
              ProductName := p.pname }

/-- The function `ReviewModel.Update`: one statement whose CTEs set the new rating and
recompute the product's `avg_rating`; the AVG subquery reads `review` at
the statement snapshot, i.e. the OLD ratings.  A missing rid yields no row
from the CROSS JOIN: `ErrRecordNotFound`, no mutation. -/
def ReviewModel.Update (db : DB) (review : Review) : Res Review × DB :=
  match db.reviews.find? (fun r => r.rid == review.RID) with
  | none => (.err .recordNotFound, db)
  | some old =>
    let snapshotAvg := avgRatingRound2 db.reviews old.prod_id
    let pname :=
      ((db.products.find? fun p => p.pid == old.prod_id).map fun p => p.pname).getD emptyStr
    (.ok { review with ProductName := pname },
     { db with
       reviews := db.reviews.map fun r =>
         if r.rid == review.RID then { r with rating := review.Rating } else r
       products := db.products.map fun p =>
         if p.pid == old.prod_id then { p with avg_rating := snapshotAvg } else p })

/-- The function `ReviewModel.UpdateHelpfulCount`: reject any delta other than 1 and -1
before any query; otherwise one atomic statement
`SET helpful_count = GREATEST(0, helpful_count + $1) WHERE rid = $2
RETURNING helpful_count`; no row means `ErrRecordNotFound`. -/
def ReviewModel.UpdateHelpfulCount (db : DB) (rid : Int) (increment : Int) :
    Res Unit × DB :=
  if increment ≠ 1 ∧ increment ≠ -1 then
    (.err (.invalidInput msgInvalidIncrement), db)
  else if db.reviews.any (fun r => r.rid == rid) then
    (.ok (), { db with
               reviews := db.reviews.map fun r =>
                 if r.rid == rid then { r with helpful_count := max 0 (r.helpful_count + increment) }
                 else r })
  else (.err .recordNotFound, db)

/-- The function `ReviewModel.Delete`: id < 1 is rejected with a plain
`fmt.Errorf("invalid review ID: %d", id)` (not `ErrRecordNotFound`);
otherwise one statement deletes the row and sets the product's
`avg_rating` to `COALESCE(AVG-subquery, 0)`.  The AVG subquery reads
`review` at the statement snapshot, which still contains the deleted row.
An unmatched rid makes the final `SELECT EXISTS` false: `ErrRecordNotFound`,
no mutation. -/
def ReviewModel.Delete (db : DB) (id : Int) : Res Unit × DB :=
  if id < 1 then (.err (.invalidInput (msgInvalidReviewIdPre ++ toString id)), db)
  else
    match db.reviews.find? (fun r => r.rid == id) with
    | none => (.err .recordNotFound, db)
    | some old =>
      let snapshotAvg := (avgRatingRound2 db.reviews old.prod_id).getD 0
      (.ok (), { db with
                 reviews := db.reviews.filter fun r => r.rid != id
                 products := db.products.map fun p =>
                   if p.pid == old.prod_id then { p with avg_rating := some snapshotAvg }
                   else p })

/-- The function `ProductModel.Get`: id < 1 is `ErrRecordNotFound`; otherwise the row or
`ErrRecordNotFound`. -/
def ProductModel.Get (db : DB) (id : Int) : Res Product :=
  if id < 1 then .err .recordNotFound
  else
    match db.products.find? (fun p => p.pid == id) with
    | none => .err .recordNotFound
    | some p =>
      .ok { PID := p.pid
            Pname := p.pname
            Product_Category := p.product_category
            Image_URL := p.image_URL
            Avg_Rating := p.avg_rating
            CreatedAt := p.created_at }

/-- The function `ProductModel.Delete`: id < 1 is `ErrRecordNotFound`; a matched row is
deleted and the `fk_product ON DELETE CASCADE` constraint removes the
product's reviews; zero rows affected is `ErrRecordNotFound`. -/
def ProductModel.Delete (db : DB) (id : Int) : Res Unit × DB :=
  if id < 1 then (.err .recordNotFound, db)
  else if db.products.any (fun p => p.pid == id) then
    (.ok (), { db with
               products := db.products.filter fun p => p.pid != id
               reviews := db.reviews.filter fun r => r.prod_id != id })
  else (.err .recordNotFound, db)

/- ORDER BY clauses of the two GetAll queries, as (column, direction)
   specifications extracted from the query texts. -/

/-- One `column direction` term of an ORDER BY clause. -/
structure OrderTerm where
  col : String
  dir : String
deriving DecidableEq

/-- The ORDER BY of `ReviewModel.GetAll`:
`fmt.Sprintf("... ORDER BY %s %s, r.rid ASC ...", filters.sortColumn(),
filters.sortDirection())`.  `none` when sortColumn panics. -/
def reviewGetAllOrderBy (f : Filters) : Option (List OrderTerm) :=
  match f.sortColumn with
  | none => none
  | some c => some [⟨c, f.sortDirection⟩, ⟨ridCol, ascStr⟩]

/-- The ORDER BY of `ProductModel.GetAll`: the query text is the constant
`... ORDER BY pid LIMIT $4 OFFSET $5 ...` — the filters' sort key is never
interpolated (bare `ORDER BY pid` is ascending in SQL). -/
def productGetAllOrderBy (_f : Filters) : List OrderTerm := [⟨pidCol, ascStr⟩]

/-- The sortable review columns of the review query, as accessors of a row;
an unknown column name would be a query error and is mapped to 0 (it is
excluded by the allow-list whenever the ORDER BY is actually built). -/
def reviewSortKeyVal (col : String) (r : ReviewRow) : Int :=
  if col = ridCol then r.rid
  else if col = ratingCol then r.rating
  else if col = helpfulCountCol then r.helpful_count
  else if col = createdAtCol then r.created_at
  else 0

/-- Lexicographic row comparison induced by an ORDER BY specification:
the SQL engine sorts by the first term, breaking ties with the later
terms; a `DESC` direction flips the comparison. -/
def rowLessBy : List OrderTerm → ReviewRow → ReviewRow → Bool
  | [], _, _ => false
  | t :: rest, a, b =>
    let ka := reviewSortKeyVal t.col a
    let kb := reviewSortKeyVal t.col b
    if ka = kb then rowLessBy rest a b
    else if t.dir = descStr then decide (kb < ka)
    else decide (ka < kb)

/-- The function `createReviewHandler` (cmd/api/reviews.go): decode, validate with
`ValidateReview` (which performs the product-existence check), answer with
the validation report when it is nonempty — before `Insert` is ever
called — and only otherwise run `ReviewModel.Insert`. -/
def createReviewHandler (db : DB) (prod_id rating : Int) : Res Review × DB :=
  let review : Review :=
    { RID := 0
      Prod_ID := prod_id
      Rating := rating
      Helpful_Count := 0
      CreatedAt := 0
      ProductName := emptyStr }
  let v := ValidateReview Validator.new review db
  if v.IsEmpty then ReviewModel.Insert db review
  else (.err (.validationFailed v.errors), db)

/- The spec-side aggregate invariant, for comparison with the code. -/

/-- The reviews currently owned by a product. -/
def productReviews (db : DB) (pid : Int) : List ReviewRow :=
  db.reviews.filter fun r => r.prod_id == pid

/-- Arithmetic mean of the ratings of a list of reviews. -/
def meanRating (rows : List ReviewRow) : ℚ :=
  (rows.map fun r => (r.rating : ℚ)).sum / (rows.length : ℚ)

/-- Modelled from the spec: "product.average_rating always equals the
arithmetic mean of the ratings of all reviews currently owned by that
product, rounded to 2 decimal places, or a defined empty-state value
(0 or null) when the product has zero reviews." -/
def specAvgInvariant (db : DB) : Prop :=
  ∀ p ∈ db.products,
    if (productReviews db p.pid).isEmpty then
      p.avg_rating = none ∨ p.avg_rating = some 0
    else p.avg_rating = some (round2 (meanRating (productReviews db p.pid)))

/- Concrete states and inputs used by the concrete-evaluation theorems. -/

def widgetName : String := "Widget"

def widgetCategory : String := "Tools"

def widgetUrl : String := "http://img.example/widget.png"

/-- A product with no reviews yet (`avg_rating` NULL as inserted). -/
def productOne : ProductRow :=
  { pid := 1
    created_at := 0
    pname := widgetName
    product_category := widgetCategory
    image_URL := widgetUrl
    avg_rating := none }

/-- State: product 1 exists, zero reviews. -/
def dbNoReviews : DB := { products := [productOne], reviews := [], nextRid := 1, now := 0 }

/-- State: product 1 with exactly one review (rid 1, rating 2) and a
consistent stored average of 2.00. -/
def dbOneReview : DB :=
  { products := [{ productOne with avg_rating := some 2 }]
    reviews := [{ rid := 1, prod_id := 1, created_at := 0, rating := 2, helpful_count := 0 }]
    nextRid := 2
    now := 0 }

/-- State: product 1 with one review (rid 1, rating 4, helpful_count 0). -/
def dbHelp : DB :=
  { products := [productOne]
    reviews := [{ rid := 1, prod_id := 1, created_at := 0, rating := 4, helpful_count := 0 }]
    nextRid := 2
    now := 0 }

/-- An incoming review body, as the create handler builds it. -/
def reviewInput (pid rating : Int) : Review :=
  { RID := 0
    Prod_ID := pid
    Rating := rating
    Helpful_Count := 0
    CreatedAt := 0
    ProductName := emptyStr }

/-- The whole-entity update input: rid 1, new rating 4. -/
def updateInputOne : Review :=
  { RID := 1
    Prod_ID := 1
    Rating := 4
    Helpful_Count := 0
    CreatedAt := 0
    ProductName := emptyStr }

def pwnedStr : String := "pwned"

def negRatingStr : String := "-rating"

def negPnameStr : String := "-pname"

/-- Filters with an empty allow-list and a hostile sort key. -/
def fEmptyAllow : Filters :=
  { Page := 1, PageSize := 10, Sort' := pwnedStr, SortSafeList := [] }

/-- Filters with an empty sort key whose stripped form is not in the
allow-list. -/
def fEmptySort : Filters :=
  { Page := 1, PageSize := 10, Sort' := emptyStr, SortSafeList := [ridCol] }

/-- Filters carrying a validated descending sort key. -/
def fWitness : Filters :=
  { Page := 1
    PageSize := 10
    Sort' := negRatingStr
    SortSafeList := [ridCol, ratingCol, negRatingStr] }

/-- A product-list request asking for descending order by name, with the
sort key present in the allow-list. -/
def fProdDesc : Filters :=
  { Page := 1
    PageSize := 10
    Sort' := negPnameStr
    SortSafeList := [pnameCol, negPnameStr] }

/-- Filters inside the validated ranges, for the limit/offset witness. -/
def fPageThree : Filters :=
  { Page := 3, PageSize := 10, Sort' := ridCol, SortSafeList := [ridCol] }


/-- The review returned by the committed insert of (prod_id 1, rating 5)
into `dbNoReviews`. -/
def insertedReviewOne : Review :=
  { RID := 1
    Prod_ID := 1
    Rating := 5
    Helpful_Count := 0
    CreatedAt := 0
    ProductName := widgetName }

/-- The review returned by the committed update of rid 1 to rating 4. -/
def updatedReviewOne : Review := { updateInputOne with ProductName := widgetName }

/- Helper lemmas about the validator accumulator. -/

/-- Errors recorded by one `Check`: the incoming report plus, when the
condition fails, exactly the one new entry. -/
theorem Validator.check_errors (v : Validator) (ok : Prop) [Decidable ok] (k m : String) :
    (v.Check ok k m).errors = v.errors ++ if ok then [] else [(k, m)] := by
  unfold Validator.Check Validator.AddError
  split_ifs <;> simp

/-- The function `AddError` appends exactly one entry to the report. -/
theorem Validator.addError_errors (v : Validator) (k m : String) :
    (v.AddError k m).errors = v.errors ++ [(k, m)] := rfl

/-- A validator that has just recorded an error is not empty. -/
theorem Validator.isEmpty_addError (v : Validator) (k m : String) :
    (v.AddError k m).IsEmpty = false := by
  simp [Validator.AddError, Validator.IsEmpty]

/-- The full error report produced by `ValidateFilters`, as a function of
the filter fields: every violated bound contributes its entry. -/
theorem validateFilters_errors (v : Validator) (f : Filters) :
    (ValidateFilters v f).errors
      = v.errors
        ++ (if 0 < f.Page then [] else [(pageKey, msgGtZero)])
        ++ (if f.Page ≤ MaxPageNumber then [] else [(pageKey, msgPageMax)])
        ++ (if 0 < f.PageSize then [] else [(pageSizeKey, msgGtZero)])
        ++ (if f.PageSize ≤ MaxPageSize then [] else [(pageSizeKey, msgPageSizeMax)])
        ++ (if f.Sort' ≠ emptyStr ∧ trimLeadingDash f.Sort' ∉ f.SortSafeList then
              [(sortFieldKey, sortOneOfMsg f.SortSafeList)] else []) := by
  simp only [ValidateFilters]
  by_cases hs : f.Sort' = emptyStr
  · simp [Validator.check_errors, PermittedValue, hs]
  · by_cases hm : trimLeadingDash f.Sort' ∈ f.SortSafeList
    · simp [Validator.check_errors, PermittedValue, hs, hm]
    · simp [Validator.check_errors, PermittedValue, hs, hm]

/-- Claim C3 (amended): `ValidateFilters` records every violated bound —
page ≤ 0, page > 500, page_size ≤ 0, page_size > 100 — together in one
report, never short-circuiting, and additionally rejects a NONEMPTY sort
key whose form stripped of the descending marker is not in the allow-list;
an empty sort key is accepted without consulting the allow-list.
Validation fails (the report is nonempty) exactly when one of these
violations is present. -/
theorem validateFilters_collects_all_violations (v : Validator) (f : Filters) :
    ((ValidateFilters v f).errors
      = v.errors
        ++ (if 0 < f.Page then [] else [(pageKey, msgGtZero)])
        ++ (if f.Page ≤ MaxPageNumber then [] else [(pageKey, msgPageMax)])
        ++ (if 0 < f.PageSize then [] else [(pageSizeKey, msgGtZero)])
        ++ (if f.PageSize ≤ MaxPageSize then [] else [(pageSizeKey, msgPageSizeMax)])
        ++ (if f.Sort' ≠ emptyStr ∧ trimLeadingDash f.Sort' ∉ f.SortSafeList then
              [(sortFieldKey, sortOneOfMsg f.SortSafeList)] else []))
    ∧ ((ValidateFilters Validator.new f).IsEmpty = false ↔
        (f.Page ≤ 0 ∨ MaxPageNumber < f.Page ∨ f.PageSize ≤ 0 ∨ MaxPageSize < f.PageSize
          ∨ (f.Sort' ≠ emptyStr ∧ trimLeadingDash f.Sort' ∉ f.SortSafeList))) := by
  refine ⟨validateFilters_errors v f, ?_⟩
  have h := validateFilters_errors Validator.new f
  rw [Validator.IsEmpty, h]
  simp only [Validator.new, List.nil_append]
  split_ifs with h1 h2 h3 h4 h5 <;> simp_all

/-- Claim C3, counterexample to the claim as stated: the empty sort key is
not a member of the allow-list once stripped, yet validation succeeds — the
allow-list check is skipped for an empty sort key. -/
theorem validateFilters_empty_sort_cex :
    (ValidateFilters Validator.new fEmptySort).IsEmpty = true
    ∧ PermittedValue (trimLeadingDash fEmptySort.Sort') fEmptySort.SortSafeList = false := by
  decide

/-- Claim C2 (amended): for every Filters value with a NONEMPTY allow-list,
`sortColumn` resolves a sort key that is a member of the allow-list to the
bare column name (descending marker stripped), and resolves any sort key
absent from the allow-list to the allow-list default (its first entry) —
never to the attacker-supplied text, which differs from the default.  With
an empty allow-list the Go code panics instead of returning a default. -/
theorem sortColumn_allowlist_resolution (f : Filters) (hne : f.SortSafeList ≠ []) :
    (f.Sort' ∈ f.SortSafeList → f.sortColumn = some (trimLeadingDash f.Sort'))
    ∧ (f.Sort' ∉ f.SortSafeList →
        ∃ c rest, f.SortSafeList = c :: rest ∧ f.sortColumn = some c
          ∧ c ≠ f.Sort' ∧ c ∈ f.SortSafeList) := by
  obtain ⟨c, rest, hl⟩ : ∃ c rest, f.SortSafeList = c :: rest := by
    cases hsl : f.SortSafeList with
    | nil => exact absurd hsl hne
    | cons a l => exact ⟨a, l, rfl⟩
  constructor
  · intro hmem
    simp [Filters.sortColumn, hmem]
  · intro hmem
    have hcmem : c ∈ f.SortSafeList := by rw [hl]; exact List.mem_cons_self c rest
    refine ⟨c, rest, hl, ?_, ?_, hcmem⟩
    · simp only [Filters.sortColumn, hl]
      rw [if_neg (hl ▸ hmem)]
    · intro hcs
      exact hmem (hcs ▸ hcmem)

/-- Claim C2, counterexample to the claim as stated: with an empty
allow-list there is no default to fall back to — `sortColumn` panics
(returns no column at all) on a sort key absent from the allow-list. -/
theorem sortColumn_empty_allowlist_cex : fEmptyAllow.sortColumn = none := by decide

/-- Claim C2, witness: the validated descending key "-rating" resolves to
the bare column "rating". -/
theorem sortColumn_allowlist_resolution_witness :
    fWitness.SortSafeList ≠ [] ∧ fWitness.sortColumn = some ratingCol := by
  refine ⟨by decide, ?_⟩
  have h := (sortColumn_allowlist_resolution fWitness (by decide)).1 (by decide)
  rw [h]
  decide

/-- Claim C4 (amended): `calculateMetaData` returns the all-zero metadata
whenever total_records = 0, for any page and page size; for positive
total_records and page_size ≥ 1 it echoes page and page size, sets
first_page = 1, computes last_page = ⌈total_records / page_size⌉
(characterized by page_size·(last_page − 1) < total_records ≤
page_size·last_page), sets has_next = (page < last_page) and
has_prev = (page > 1), and populates next_page/prev_page (page+1 / page−1)
exactly when the corresponding flag is set, leaving the Go zero value 0
otherwise; in particular (23, 3, 10) yields last_page 3, has_next false,
has_prev true, prev_page 2, next_page unset. -/
theorem calculateMetaData_spec (t p s : Int) :
    (t = 0 → calculateMetaData t p s = some emptyMetadata)
    ∧ (0 < t → 1 ≤ s → ∃ M : Metadata,
        calculateMetaData t p s = some M
        ∧ M.CurrentPage = p ∧ M.PageSize = s ∧ M.FirstPage = 1 ∧ M.TotalRecords = t
        ∧ s * (M.LastPage - 1) < t ∧ t ≤ s * M.LastPage
        ∧ (M.HasNextPage = true ↔ p < M.LastPage)
        ∧ (M.HasPrevPage = true ↔ 1 < p)
        ∧ (M.HasNextPage = true → M.NextPage = p + 1)
        ∧ (M.HasNextPage = false → M.NextPage = 0)
        ∧ (M.HasPrevPage = true → M.PrevPage = p - 1)
        ∧ (M.HasPrevPage = false → M.PrevPage = 0))
    ∧ calculateMetaData 23 3 10 = some ⟨3, 10, 1, 3, 23, false, true, 0, 2⟩ := by
  refine ⟨fun ht => by simp [calculateMetaData, ht], fun ht hs => ?_, by decide⟩
  have hs0 : s ≠ 0 := by omega
  have ht0 : ¬(t = 0) := by omega
  have hgo : goDiv (t + s - 1) s = some (Int.tdiv (t + s - 1) s) := by
    simp [goDiv, hs0]
  refine ⟨⟨p, s, 1, Int.tdiv (t + s - 1) s, t,
      decide (p < Int.tdiv (t + s - 1) s), decide (1 < p),
      if decide (p < Int.tdiv (t + s - 1) s) = true then p + 1 else 0,
      if decide (1 < p) = true then p - 1 else 0⟩,
    ?_, rfl, rfl, rfl, rfl, ?_, ?_, ?_, ?_, ?_, ?_, ?_, ?_⟩
  · simp only [calculateMetaData, if_neg ht0, hgo]
  · show s * (Int.tdiv (t + s - 1) s - 1) < t
    rw [Int.tdiv_eq_ediv (by omega) (by omega)]
    have hle := @Int.ediv_mul_le (t + s - 1) s hs0
    have hlt := @Int.lt_ediv_add_one_mul_self (t + s - 1) s (by omega)
    nlinarith [hle, hlt]
  · show t ≤ s * Int.tdiv (t + s - 1) s
    rw [Int.tdiv_eq_ediv (by omega) (by omega)]
    have hle := @Int.ediv_mul_le (t + s - 1) s hs0
    have hlt := @Int.lt_ediv_add_one_mul_self (t + s - 1) s (by omega)
    nlinarith [hle, hlt]
  · simp
  · simp
  · intro hx
    simp at hx
    simp [hx]
  · intro hx
    simp at hx
    simp [hx]
  · intro hx
    simp at hx
    simp [hx]
  · intro hx
    simp at hx
    simp [hx]

/-- Claim C4, counterexample to the claim as stated: with page_size = 0 and
positive total_records the last-page division panics — no metadata value is
produced at all, rather than the populated value the claim promises for
every (total_records, page, page_size). -/
theorem calculateMetaData_zero_pageSize_cex : calculateMetaData 5 1 0 = none := by decide

/-- Claim C4, witness: the general branch applied at (23, 3, 10). -/
theorem calculateMetaData_spec_witness :
    ∃ M : Metadata, calculateMetaData 23 3 10 = some M
      ∧ 10 * (M.LastPage - 1) < 23 ∧ 23 ≤ 10 * M.LastPage := by
  obtain ⟨M, hM, _, _, _, _, h5, h6, _⟩ :=
    (calculateMetaData_spec 23 3 10).2.1 (by decide) (by decide)
  exact ⟨M, hM, h5, h6⟩

/-- A row strictly below another under an ORDER BY specification is never
also strictly above it (asymmetry of the lexicographic comparison). -/
theorem rowLessBy_asymm (spec : List OrderTerm) (a b : ReviewRow)
    (h : rowLessBy spec a b = true) : rowLessBy spec b a = false := by
  induction spec with
  | nil => simp [rowLessBy] at h
  | cons t rest ih =>
    unfold rowLessBy at h ⊢
    by_cases hk : reviewSortKeyVal t.col a = reviewSortKeyVal t.col b
    · rw [if_pos hk] at h
      rw [if_pos hk.symm]
      exact ih h
    · rw [if_neg hk] at h
      rw [if_neg (Ne.symm hk)]
      by_cases hd : t.dir = descStr
      · rw [if_pos hd] at h ⊢
        simp only [decide_eq_true_eq] at h
        simp only [decide_eq_false_iff_not]
        omega
      · rw [if_neg hd] at h ⊢
        simp only [decide_eq_true_eq] at h
        simp only [decide_eq_false_iff_not]
        omega

/-- Two rows distinguished by some ORDER BY term are comparable: one of
them sorts strictly before the other. -/
theorem rowLessBy_total (spec : List OrderTerm) (a b : ReviewRow)
    (h : ∃ t ∈ spec, reviewSortKeyVal t.col a ≠ reviewSortKeyVal t.col b) :
    rowLessBy spec a b = true ∨ rowLessBy spec b a = true := by
  induction spec with
  | nil => simp at h
  | cons t rest ih =>
    unfold rowLessBy
    by_cases hk : reviewSortKeyVal t.col a = reviewSortKeyVal t.col b
    · rw [if_pos hk, if_pos hk.symm]
      apply ih
      obtain ⟨u, hu, hne⟩ := h
      rcases List.mem_cons.mp hu with hh | hmem
      · exact absurd (hh ▸ hk) (hh ▸ hne)
      · exact ⟨u, hmem, hne⟩
    · rw [if_neg hk, if_neg (Ne.symm hk)]
      by_cases hd : t.dir = descStr
      · rw [if_pos hd, if_pos hd]
        simp only [decide_eq_true_eq]
        omega
      · rw [if_neg hd, if_neg hd]
        simp only [decide_eq_true_eq]
        omega

/-- Claim C5 (amended): a leading descending marker on the sort key yields
DESC and its absence ASC; the review listing orders by the resolved sort
column in that direction with the fixed secondary term `r.rid ASC`, so any
two review rows with distinct rids are ordered in exactly one way — the
pagination order is deterministic even when the sort column has duplicate
values.  The PRODUCT listing, however, always orders by `pid` ascending:
its query text never interpolates the sort key, so the claim's
direction/tie-break contract holds only for review list requests. -/
theorem listing_order_spec (f : Filters) :
    productGetAllOrderBy f = [⟨pidCol, ascStr⟩]
    ∧ (hasLeadingDash f.Sort' = true → f.sortDirection = descStr)
    ∧ (hasLeadingDash f.Sort' = false → f.sortDirection = ascStr)
    ∧ (∀ c, f.sortColumn = some c →
        reviewGetAllOrderBy f = some [⟨c, f.sortDirection⟩, ⟨ridCol, ascStr⟩])
    ∧ (∀ spec a b, reviewGetAllOrderBy f = some spec → a.rid ≠ b.rid →
        rowLessBy spec a b = !rowLessBy spec b a) := by
  refine ⟨rfl, ?_, ?_, ?_, ?_⟩
  · intro h
    simp [Filters.sortDirection, h]
  · intro h
    simp [Filters.sortDirection, h]
  · intro c hc
    simp [reviewGetAllOrderBy, hc]
  · intro spec a b hspec hrid
    have hterm : (⟨ridCol, ascStr⟩ : OrderTerm) ∈ spec := by
      cases hc : f.sortColumn with
      | none => simp [reviewGetAllOrderBy, hc] at hspec
      | some c =>
        simp only [reviewGetAllOrderBy, hc, Option.some_inj] at hspec
        rw [← hspec]
        simp
    have hkey : reviewSortKeyVal ridCol a ≠ reviewSortKeyVal ridCol b := by
      simpa [reviewSortKeyVal] using hrid
    have htot := rowLessBy_total spec a b ⟨⟨ridCol, ascStr⟩, hterm, hkey⟩
    cases hab : rowLessBy spec a b with
    | true =>
      have hba := rowLessBy_asymm spec a b hab
      simp [hba]
    | false =>
      rcases htot with h | h
      · rw [hab] at h
        exact absurd h (by simp)
      · simp [h]

/-- Claim C5, counterexample to the claim as stated: a product list request
whose sort key carries the descending marker and is a member of the
allow-list still produces the fixed `ORDER BY pid` ascending — no term of
the product ORDER BY is descending, and none mentions the requested
column. -/
theorem productGetAll_ignores_sort_cex :
    hasLeadingDash fProdDesc.Sort' = true
    ∧ fProdDesc.Sort' ∈ fProdDesc.SortSafeList
    ∧ productGetAllOrderBy fProdDesc = [⟨pidCol, ascStr⟩]
    ∧ ∀ term ∈ productGetAllOrderBy fProdDesc,
        term.dir ≠ descStr ∧ term.col ≠ trimLeadingDash fProdDesc.Sort' := by
  decide

/-- Claim C5, witness: the validated descending key "-rating" produces the
ORDER BY (rating DESC, rid ASC), and two rows tied on rating but with
distinct rids are ordered in exactly one direction. -/
theorem listing_order_spec_witness :
    reviewGetAllOrderBy fWitness = some [⟨ratingCol, descStr⟩, ⟨ridCol, ascStr⟩]
    ∧ rowLessBy [⟨ratingCol, descStr⟩, ⟨ridCol, ascStr⟩] ⟨1, 1, 0, 5, 0⟩ ⟨2, 1, 0, 5, 0⟩
        = !rowLessBy [⟨ratingCol, descStr⟩, ⟨ridCol, ascStr⟩] ⟨2, 1, 0, 5, 0⟩ ⟨1, 1, 0, 5, 0⟩ :=
  ⟨by decide,
   (listing_order_spec fWitness).2.2.2.2 [⟨ratingCol, descStr⟩, ⟨ridCol, ascStr⟩]
     ⟨1, 1, 0, 5, 0⟩ ⟨2, 1, 0, 5, 0⟩ (by decide) (by decide)⟩

/-- Claim C6: the helpful-count mutation rejects any delta other than +1
and −1 before touching storage (state unchanged); with a valid delta it
returns RecordNotFound for an absent review id (state unchanged), and for a
present id rewrites exactly that row's count to max(0, old + delta) in one
statement; counts never become negative; and concretely: from 0 a decrement
leaves 0, and two increments then a decrement leave 1. -/
theorem updateHelpfulCount_spec :
    (∀ (db : DB) (rid inc : Int), inc ≠ 1 → inc ≠ -1 →
      ReviewModel.UpdateHelpfulCount db rid inc
        = (.err (.invalidInput msgInvalidIncrement), db))
    ∧ (∀ (db : DB) (rid inc : Int), (inc = 1 ∨ inc = -1) →
        (∀ r ∈ db.reviews, r.rid ≠ rid) →
        ReviewModel.UpdateHelpfulCount db rid inc = (.err .recordNotFound, db))
    ∧ (∀ (db : DB) (rid inc : Int), (inc = 1 ∨ inc = -1) →
        (∃ r ∈ db.reviews, r.rid = rid) →
        ReviewModel.UpdateHelpfulCount db rid inc
          = (.ok (), { db with reviews := db.reviews.map fun r =>
              if r.rid == rid then { r with helpful_count := max 0 (r.helpful_count + inc) }
              else r }))
    ∧ (∀ (db : DB) (rid inc : Int), (∀ r ∈ db.reviews, 0 ≤ r.helpful_count) →
        ∀ r ∈ (ReviewModel.UpdateHelpfulCount db rid inc).2.reviews, 0 ≤ r.helpful_count)
    ∧ (ReviewModel.UpdateHelpfulCount dbHelp 1 (-1)).2.reviews
        = [{ rid := 1, prod_id := 1, created_at := 0, rating := 4, helpful_count := 0 }]
    ∧ (ReviewModel.UpdateHelpfulCount
        (ReviewModel.UpdateHelpfulCount
          (ReviewModel.UpdateHelpfulCount dbHelp 1 1).2 1 1).2 1 (-1)).2.reviews
        = [{ rid := 1, prod_id := 1, created_at := 0, rating := 4, helpful_count := 1 }] := by
  refine ⟨?_, ?_, ?_, ?_, by decide, by decide⟩
  · intro db rid inc h1 h2
    simp [ReviewModel.UpdateHelpfulCount, h1, h2]
  · intro db rid inc hinc habs
    have hcond : ¬(inc ≠ 1 ∧ inc ≠ -1) := by tauto
    have hany : (db.reviews.any fun r => r.rid == rid) = false := by
      simp only [List.any_eq_false, beq_iff_eq]
      exact habs
    simp [ReviewModel.UpdateHelpfulCount, hcond, hany]
  · intro db rid inc hinc hex
    have hcond : ¬(inc ≠ 1 ∧ inc ≠ -1) := by tauto
    have hany : (db.reviews.any fun r => r.rid == rid) = true := by
      rw [List.any_eq_true]
      obtain ⟨r, hr, he⟩ := hex
      exact ⟨r, hr, by simp [he]⟩
    simp [ReviewModel.UpdateHelpfulCount, hcond, hany]
  · intro db rid inc hpos r hr
    unfold ReviewModel.UpdateHelpfulCount at hr
    split_ifs at hr with h1 h2
    · exact hpos r hr
    · simp only [List.mem_map] at hr
      obtain ⟨r0, hr0, hre⟩ := hr
      by_cases hid : r0.rid == rid
      · rw [if_pos hid] at hre
        rw [← hre]
        exact le_max_left 0 _
      · rw [if_neg hid] at hre
        exact hre ▸ hpos r0 hr0
    · exact hpos r hr

/-- Claim C6, witness: rejection of delta 5 and RecordNotFound for an
absent review id, both leaving the state unchanged. -/
theorem updateHelpfulCount_spec_witness :
    ReviewModel.UpdateHelpfulCount dbHelp 1 5
      = (.err (.invalidInput msgInvalidIncrement), dbHelp)
    ∧ ReviewModel.UpdateHelpfulCount dbHelp 2 1 = (.err .recordNotFound, dbHelp) :=
  ⟨updateHelpfulCount_spec.1 dbHelp 1 5 (by decide) (by decide),
   updateHelpfulCount_spec.2.1 dbHelp 2 1 (by decide) (by decide)⟩

/-- Claim C7: creating a review whose prod_id references no existing
product fails with the validation report (carrying the dangling-reference
entry) produced by the existence check, before the insert transaction is
ever opened, and the stores are unchanged. -/
theorem createReview_dangling_ref (db : DB) (pid rating : Int)
    (habs : ∀ p ∈ db.products, p.pid ≠ pid) :
    ∃ errs, createReviewHandler db pid rating = (.err (.validationFailed errs), db)
      ∧ (prodIdKey, msgDanglingRef) ∈ errs := by
  have hany : (db.products.any fun p => p.pid == pid) = false := by
    simp only [List.any_eq_false, beq_iff_eq]
    exact habs
  simp only [createReviewHandler, ValidateReview, hany, Bool.false_eq_true, if_false,
    Validator.isEmpty_addError]
  exact ⟨_, rfl, by simp [Validator.addError_errors]⟩

/-- Claim C7, witness: inserting a review for the absent product id 7 into
the one-product store fails with the dangling-reference report and leaves
the store untouched. -/
theorem createReview_dangling_ref_witness :
    ∃ errs, createReviewHandler dbNoReviews 7 3 = (.err (.validationFailed errs), dbNoReviews)
      ∧ (prodIdKey, msgDanglingRef) ∈ errs :=
  createReview_dangling_ref dbNoReviews 7 3 (by decide)

/-- Claim C8 (amended): for id < 1, get-by-id on Review and Product and
delete on Product fail with RecordNotFound without touching storage, but
delete on Review fails with the plain error "invalid review ID: %d" — not
RecordNotFound — likewise without touching storage. -/
theorem invalid_id_handling (db : DB) (id : Int) (h : id < 1) :
    ReviewModel.Get db id = .err .recordNotFound
    ∧ ProductModel.Get db id = .err .recordNotFound
    ∧ ProductModel.Delete db id = (.err .recordNotFound, db)
    ∧ ReviewModel.Delete db id
        = (.err (.invalidInput (msgInvalidReviewIdPre ++ toString id)), db) := by
  refine ⟨?_, ?_, ?_, ?_⟩ <;>
    simp [ReviewModel.Get, ProductModel.Get, ProductModel.Delete, ReviewModel.Delete, h]

/-- Claim C8, counterexample to the claim as stated: deleting a review
with id 0 fails with the plain invalid-id error, not RecordNotFound. -/
theorem reviewDelete_invalid_id_cex :
    (ReviewModel.Delete dbNoReviews 0).1
        = .err (.invalidInput (msgInvalidReviewIdPre ++ toString (0 : Int)))
    ∧ (ReviewModel.Delete dbNoReviews 0).1 ≠ .err .recordNotFound := by
  decide

/-- Claim C8, witness: the four operations applied at id −3. -/
theorem invalid_id_handling_witness :
    ReviewModel.Get dbNoReviews (-3) = .err .recordNotFound
    ∧ ProductModel.Get dbNoReviews (-3) = .err .recordNotFound
    ∧ ProductModel.Delete dbNoReviews (-3) = (.err .recordNotFound, dbNoReviews)
    ∧ ReviewModel.Delete dbNoReviews (-3)
        = (.err (.invalidInput (msgInvalidReviewIdPre ++ toString (-3 : Int))), dbNoReviews) :=
  invalid_id_handling dbNoReviews (-3) (by decide)

/-- Claim C9: for every page in [1,500] and page size in [1,100], the query
spec uses limit = page_size and offset = (page − 1) · page_size. -/
theorem limit_offset_spec (f : Filters) (_h1 : 1 ≤ f.Page) (_h2 : f.Page ≤ MaxPageNumber)
    (_h3 : 1 ≤ f.PageSize) (_h4 : f.PageSize ≤ MaxPageSize) :
    f.limit = f.PageSize ∧ f.offset = (f.Page - 1) * f.PageSize :=
  ⟨rfl, rfl⟩

/-- Claim C9, witness: page 3 with page size 10. -/
theorem limit_offset_spec_witness :
    (1 ≤ fPageThree.Page ∧ fPageThree.Page ≤ MaxPageNumber
      ∧ 1 ≤ fPageThree.PageSize ∧ fPageThree.PageSize ≤ MaxPageSize)
    ∧ fPageThree.limit = fPageThree.PageSize
    ∧ fPageThree.offset = (fPageThree.Page - 1) * fPageThree.PageSize :=
  ⟨⟨by decide, by decide, by decide, by decide⟩,
   limit_offset_spec fPageThree (by decide) (by decide) (by decide) (by decide)⟩

/-- Claim C10: `calculateMetaData` divides by page_size with no guard once
total_records ≠ 0: with page_size = 0 and positive total_records it panics
(no result), only the total_records = 0 branch returns before dividing, and
with page_size ≥ 1 it is total. -/
theorem calculateMetaData_requires_positive_pageSize :
    (∀ t p : Int, 0 < t → calculateMetaData t p 0 = none)
    ∧ (∀ p : Int, calculateMetaData 0 p 0 = some emptyMetadata)
    ∧ (∀ t p s : Int, 1 ≤ s → (calculateMetaData t p s).isSome = true) := by
  refine ⟨?_, ?_, ?_⟩
  · intro t p ht
    have ht0 : ¬(t = 0) := by omega
    simp [calculateMetaData, goDiv, ht0]
  · intro p
    simp [calculateMetaData]
  · intro t p s hs
    have hs0 : ¬(s = 0) := by omega
    by_cases ht : t = 0 <;> simp [calculateMetaData, goDiv, ht, hs0]

/-- Claim C10, witness: page_size 0 panics on 7 records, returns the empty
metadata on 0 records, and page_size 10 on 23 records succeeds. -/
theorem calculateMetaData_requires_positive_pageSize_witness :
    calculateMetaData 7 2 0 = none
    ∧ calculateMetaData 0 2 0 = some emptyMetadata
    ∧ (calculateMetaData 23 3 10).isSome = true :=
  ⟨calculateMetaData_requires_positive_pageSize.1 7 2 (by decide),
   calculateMetaData_requires_positive_pageSize.2.1 2,
   calculateMetaData_requires_positive_pageSize.2.2 23 3 10 (by decide)⟩

/-- Claim C1, evaluation at the failing inputs (code bug): all three review
mutations commit while leaving `avg_rating` computed from the statement
snapshot rather than the resulting review set.  Inserting the first review
(rating 5) for a product leaves its average NULL (the AVG CTE sees zero
rows); updating the only review from rating 2 to 4 leaves the average at
2.00; deleting the only review leaves the average at 2.00 instead of
resetting it to 0.  Each committed state violates the spec's invariant. -/
theorem avgRating_cte_snapshot_bug :
    ((ReviewModel.Insert dbNoReviews (reviewInput 1 5)).1 = .ok insertedReviewOne
      ∧ ¬ specAvgInvariant (ReviewModel.Insert dbNoReviews (reviewInput 1 5)).2)
    ∧ ((ReviewModel.Update dbOneReview updateInputOne).1 = .ok updatedReviewOne
      ∧ ¬ specAvgInvariant (ReviewModel.Update dbOneReview updateInputOne).2)
    ∧ ((ReviewModel.Delete dbOneReview 1).1 = .ok ()
      ∧ ¬ specAvgInvariant (ReviewModel.Delete dbOneReview 1).2) := by
  have hprodU : (ReviewModel.Update dbOneReview updateInputOne).2.products
      = [{ productOne with avg_rating := some (round2 2) }] := by
    simp [ReviewModel.Update, dbOneReview, avgRatingRound2, updateInputOne, productOne]
  have hrevU : productReviews (ReviewModel.Update dbOneReview updateInputOne).2 1
      = [{ rid := 1, prod_id := 1, created_at := 0, rating := 4, helpful_count := 0 }] := by
    simp [productReviews, ReviewModel.Update, dbOneReview, updateInputOne]
  have hprodD : (ReviewModel.Delete dbOneReview 1).2.products
      = [{ productOne with avg_rating := some (round2 2) }] := by
    simp [ReviewModel.Delete, dbOneReview, avgRatingRound2, productOne]
  have hrevD : productReviews (ReviewModel.Delete dbOneReview 1).2 1 = [] := by
    simp [productReviews, ReviewModel.Delete, dbOneReview]
  refine ⟨⟨by decide, ?_⟩, ⟨by decide, ?_⟩, ⟨by decide, ?_⟩⟩
  · intro h
    have := h { productOne with avg_rating := none } (by decide)
    simp [productReviews, ReviewModel.Insert, dbNoReviews, avgRatingRound2,
      reviewInput, productOne] at this
  · intro h
    have := h { productOne with avg_rating := some (round2 2) }
      (by rw [hprodU]; exact List.mem_singleton_self _)
    rw [show ({ productOne with avg_rating := some (round2 2) } : ProductRow).pid = 1
      from rfl] at this
    rw [hrevU] at this
    simp [meanRating, productOne] at this
    norm_num [round2] at this
  · intro h
    have := h { productOne with avg_rating := some (round2 2) }
      (by rw [hprodD]; exact List.mem_singleton_self _)
    rw [show ({ productOne with avg_rating := some (round2 2) } : ProductRow).pid = 1
      from rfl] at this
    rw [hrevD] at this
    simp [productOne] at this
    norm_num [round2] at this

end ReviewsApi
